import Mathlib

/-!
Shallow embedding of `src/prefect_data_loader.py` (CBIIT/C3DC-Prefect-Dataloader).

Python strings are modelled as `List Char` (`Str`); `str s` injects a Lean string
literal.  Pure helpers of the source (`get_time`, the plural-form computation of
`create_prop_file`, the folder normalisation of `c3dc_hub_data_loader`) become
Lean functions; the fallible parts (`yaml.safe_load`, the `"Nodes"` key access,
the version-guard `raise ValueError`) become `Option`/`Except` values.  The file
write performed by `create_prop_file` and the `Config` object handed to the
external loader `main` are the observable outputs of the respective functions:
an `Except.error` result carries neither, reflecting that the Python exception
is raised before the corresponding side effect.

The English pluralisation engine (`inflect.engine().plural`) is an external
library; it is modelled as an arbitrary function parameter `plural : Str → Str`.
Likewise AWS secret retrieval and `git describe` tag resolution are external:
their results (`Secret`, `Option Str`) are inputs of the flow model.
-/

namespace PrefectDataLoader

/-- Python strings, modelled as lists of characters. -/
abbrev Str := List Char

/-- Injection of a Lean string literal into the model. -/
def str (s : String) : Str := s.data

/-- Python `s.split(sep)` for a one-character separator `c`
    (source line 83 / 85 uses `node.split("_")`).  Splitting the empty string
    yields `[[]]`, matching Python's `"".split("_") == [""]`. -/
def splitOnChar (c : Char) : Str → List Str
  | [] => [[]]
  | a :: rest =>
    match splitOnChar c rest with
    | [] => [[]]
    | h :: t => if a = c then [] :: h :: t else (a :: h) :: t

/-- Python `sep.join(parts)` for the one-character separator `c`
    (source line 86 uses `"_".join(node_name_list)`). -/
def joinSep (c : Char) : List Str → Str
  | [] => []
  | [s] => s
  | s :: rest => s ++ c :: joinSep c rest

/-- Python `s.endswith(c)` for a one-character suffix (source lines 266, 274). -/
def endsWith (c : Char) (s : Str) : Bool := s.getLast? == some c

/-- Plural-form computation of `create_prop_file`, source lines 82-88:
    if `"_" in node`, pluralise only the last `"_"`-separated segment and
    rejoin; otherwise pluralise the whole name.  `plural` stands for the
    external `inflect` engine.  Python's `node.split("_")[-1]` is the last
    element of a never-empty list, rendered as `getLastD []`. -/
def node_plural (plural : Str → Str) (node : Str) : Str :=
  if '_' ∈ node then
    let parts := splitOnChar '_' node
    let last_word := parts.getLastD []
    let last_word_plural := plural last_word
    let node_name_list := parts.dropLast ++ [last_word_plural]
    joinSep '_' node_name_list
  else
    plural node

/-- Decimal digits of a natural number, left-padded with `'0'` to width `w`,
    as Python's `strftime` does for the `%Y %m %d %H %M %S` directives. -/
def zpad (w : Nat) (n : Nat) : Str :=
  let ds := Nat.toDigits 10 n
  List.replicate (w - ds.length) '0' ++ ds

/-- Wall-clock instant at whole-second precision, as observed by
    `datetime.now(tz)` in `get_time` (source lines 28-33).  The time-zone
    conversion itself is external; this is the already-converted local time. -/
structure DateTime where
  year : Nat
  month : Nat
  day : Nat
  hour : Nat
  minute : Nat
  second : Nat

/-- Source lines 28-33: `now.strftime("%Y%m%d_T%H%M%S")`.
    `%Y` zero-pads to four digits, the other directives to two. -/
def get_time (now : DateTime) : Str :=
  zpad 4 now.year ++ zpad 2 now.month ++ zpad 2 now.day ++
    str "_T" ++ zpad 2 now.hour ++ zpad 2 now.minute ++ zpad 2 now.second

/-- Structured data (YAML) values, as far as the source manipulates them:
    scalars and insertion-ordered mappings. -/
inductive YamlVal where
  | vstr : Str → YamlVal
  | vmap : List (Str × YamlVal) → YamlVal

/-- Result of `yaml.safe_load` on the model file, as far as `create_prop_file`
    inspects it (source line 77 reads only `model_dict["Nodes"].keys()`).
    `nodes = none` models a parsed document without the `"Nodes"` key
    (the `KeyError` case); each node carries its field definitions, which the
    source never looks at. -/
structure ModelDoc where
  nodes : Option (List (Str × YamlVal))

/-- Failure modes of `create_prop_file`: the YAML parse failure raised by
    `yaml.safe_load` (source line 75) and the missing-`"Nodes"` failure raised
    by `model_dict["Nodes"]` (source line 77). -/
inductive PropError where
  | parseError : PropError
  | schemaError : PropError
deriving DecidableEq

/-- The one file write of `create_prop_file` (source lines 104-106):
    `open(prop_file_name, "w")` truncates/overwrites, hence `overwrite = true`;
    `yaml.dump(..., sort_keys=False)` preserves the mapping insertion order
    kept in `doc`. -/
structure FileWrite where
  path : Str
  doc : YamlVal
  overwrite : Bool

/-- The fixed `type_mapping` table of `create_prop_file`, source lines 92-102,
    as the insertion-ordered list of its key/value pairs. -/
def type_mapping : List (Str × Str) :=
  [ (str "string", str "String"),
    (str "number", str "Float"),
    (str "integer", str "Int"),
    (str "boolean", str "Boolean"),
    (str "array", str "Array"),
    (str "object", str "Object"),
    (str "datetime", str "DateTime"),
    (str "date", str "Date"),
    (str "TBD", str "String") ]

/-- Source lines 55-114, `create_prop_file`.  The parse outcome of the model
    YAML file is the input `parsed` (`none` = `yaml.safe_load` raised).  On
    success the result is the file write plus the returned file name; on
    failure the Python exception propagates before any write happens, so the
    error result carries no `FileWrite`.  Mapping keys are listed in the
    order the Python code inserts them. -/
def create_prop_file (plural : Str → Str) (parsed : Option ModelDoc)
    (delimiter : Str) (domain_value : Str) : Except PropError (FileWrite × Str) :=
  match parsed with
  | none => .error .parseError
  | some model_dict =>
    match model_dict.nodes with
    | none => .error .schemaError
    | some nodesMap =>
      let node_list := nodesMap.map Prod.fst
      let plural_dict := node_list.map (fun node => (node, node_plural plural node))
      let id_dict := node_list.map (fun node => (node, str "id"))
      let props : List (Str × YamlVal) :=
        [ (str "domain_value", .vstr domain_value),
          (str "rel_prop_delimiter", .vstr (str "$")),
          (str "delimiter", .vstr delimiter),
          (str "plurals", .vmap (plural_dict.map (fun p => (p.1, .vstr p.2)))),
          (str "type_mapping", .vmap (type_mapping.map (fun p => (p.1, .vstr p.2)))),
          (str "id_fields", .vmap (id_dict.map (fun p => (p.1, .vstr p.2)))) ]
      let return_dict : YamlVal := .vmap [(str "Properties", .vmap props)]
      let prop_file_name := str "props_file.yaml"
      .ok ({ path := prop_file_name, doc := return_dict, overwrite := true },
           prop_file_name)

/-- Plugin wrapper: source line 218 wraps each plugin name in `PluginConfig`. -/
structure PluginConfig where
  name : Str
deriving DecidableEq

/-- The `Config` class, source lines 169-221, field for field. -/
structure Config where
  dataset : Str
  uri : Str
  user : Str
  password : Str
  schema : List Str
  prop_file : Str
  bucket : Str
  s3_folder : Str
  backup_folder : Str
  cheat_mode : Bool
  dry_run : Bool
  wipe_db : Bool
  no_backup : Bool
  no_parents : Bool
  verbose : Bool
  yes : Bool
  max_violations : Nat
  mode : Str
  split_transactions : Bool
  upload_log_dir : Option Str
  plugins : List PluginConfig
  temp_folder : Str
  config_file : Option Str

/-- Source lines 117-167, `load_data`: builds the `Config` passed to the
    external loader `main`.  The call to `main` is the opaque external load;
    the observable output of this layer is the `Config` it receives.
    Parameters appear in the source's order. -/
def load_data (s3_bucket s3_folder : Str) (upload_log_dir : Option Str)
    (dataset temp_folder uri user password : Str) (schemas : List Str)
    (prop_file backup_folder : Str)
    (cheat_mode dry_run wipe_db no_backup no_parents verbose yes : Bool)
    (max_violation : Nat) (mode : Str) (split_transaction : Bool)
    (plugins : List Str) : Config :=
  { dataset := dataset
    uri := uri
    user := user
    password := password
    schema := schemas
    prop_file := prop_file
    bucket := s3_bucket
    s3_folder := s3_folder
    backup_folder := backup_folder
    cheat_mode := cheat_mode
    dry_run := dry_run
    wipe_db := wipe_db
    no_backup := no_backup
    no_parents := no_parents
    verbose := verbose
    yes := yes
    max_violations := max_violation
    mode := mode
    split_transactions := split_transaction
    upload_log_dir := upload_log_dir
    plugins := plugins.map PluginConfig.mk
    temp_folder := temp_folder
    config_file := none }

/-- The secret mapping returned by `get_secret`, restricted to the three keys
    the flow reads (source lines 250-252). -/
structure Secret where
  neo4j_uri : Str
  neo4j_password : Str
  submission_bucket : Str

/-- Failure modes of the flow `c3dc_hub_data_loader`: the `ValueError` raised
    on a model-tag mismatch (source line 263) and a propagated
    `create_prop_file` failure. -/
inductive HubError where
  | consistencyError : HubError
  | propError : PropError → HubError
deriving DecidableEq

/-- Observable outcome of a successful flow run: the property-file write and
    returned name, the `Config` handed to the external loader, and the derived
    S3 locations. -/
structure LoadRun where
  propWrite : FileWrite
  prop_file : Str
  config : Config
  s3_folder : Str
  upload_log_dir : Str

/-- Metadata-folder processing, source lines 265-270: append a `"/"` unless
    one is already there; `s3_folder` is the processed value. -/
def s3_folder_of (metadata_folder : Str) : Str :=
  if endsWith '/' metadata_folder then metadata_folder
  else metadata_folder ++ ['/']

/-- Runner processing, source lines 274-277: drop a trailing `"/"` if present
    (Python `runner[:-1]`). -/
def normalize_runner (runner : Str) : Str :=
  if endsWith '/' runner then runner.dropLast else runner

/-- Log-upload destination, source lines 272-278:
    `f"s3://{s3_bucket}/{runner}/{log_folder}/logs"` with
    `log_folder = f"prefect_c3dc_dataloader_{get_time()}"` and the runner
    already stripped of a trailing slash. -/
def upload_log_dir_of (s3_bucket runner : Str) (now : DateTime) : Str :=
  let log_folder := str "prefect_c3dc_dataloader_" ++ get_time now
  str "s3://" ++ s3_bucket ++ str "/" ++ normalize_runner runner ++ str "/" ++
    log_folder ++ str "/logs"

/-- Source lines 223-313, the flow `c3dc_hub_data_loader`.  External inputs
    already resolved: `secret` (AWS Secrets Manager), `pulled_model_branch`
    (`get_git_tag` on `../c3dc-model/`, `none` when the current commit carries
    no exact tag), `now` (current EST time), `plural` (inflect engine) and
    `model_parse` (YAML parse outcome of the model file).  The version guard
    (lines 258-263) raises before the property file is created (line 287) and
    before `load_data` is invoked (lines 291-310), so the `consistencyError`
    result carries neither a file write nor a `Config`. -/
def c3dc_hub_data_loader (secret : Secret) (pulled_model_branch : Option Str)
    (now : DateTime) (plural : Str → Str) (model_parse : Option ModelDoc)
    (metadata_folder runner model_tag : Str)
    (cheat_mode dry_run wipe_db : Bool) (mode : Str)
    (split_transaction : Bool) : Except HubError LoadRun :=
  let uri := secret.neo4j_uri
  let password := secret.neo4j_password
  let s3_bucket := secret.submission_bucket
  if some model_tag = pulled_model_branch then
    let s3_folder := s3_folder_of metadata_folder
    let upload_log_dir := upload_log_dir_of s3_bucket runner now
    let schemas := [str "../c3dc-model/model-desc/c3dc-model.yml",
                    str "../c3dc-model/model-desc/c3dc-model-props.yml"]
    let domain_value := str "clinicalcommons.ccdi.cancer.gov"
    let metadata_delimiter := str ";"
    match create_prop_file plural model_parse metadata_delimiter domain_value with
    | .error e => .error (.propError e)
    | .ok (w, prop_file) =>
      .ok { propWrite := w
            prop_file := prop_file
            config := load_data s3_bucket s3_folder (some upload_log_dir)
              (str "data") (str "tmp") uri (str "neo4j") password schemas
              prop_file (str "tmp/data-loader-backups")
              cheat_mode dry_run wipe_db
              true true false true 1000000 mode split_transaction []
            s3_folder := s3_folder
            upload_log_dir := upload_log_dir }
  else
    .error .consistencyError

/-- Lookup of the `type_mapping` sub-document inside a persisted property
    document. -/
def typeMappingOf (doc : YamlVal) : Option YamlVal :=
  match doc with
  | .vmap entries =>
    match List.lookup (str "Properties") entries with
    | some (.vmap props) => List.lookup (str "type_mapping") props
    | _ => none
  | _ => none

/-- Lookup of one node's entry in the `id_fields` sub-document of a persisted
    property document. -/
def idFieldOf (doc : YamlVal) (node : Str) : Option YamlVal :=
  match doc with
  | .vmap entries =>
    match List.lookup (str "Properties") entries with
    | some (.vmap props) =>
      match List.lookup (str "id_fields") props with
      | some (.vmap idm) => List.lookup node idm
      | _ => none
    | _ => none
  | _ => none

/-- Path of the file written by a `create_prop_file` outcome, if any
    (`none` when the call failed and nothing was written). -/
def written_path (res : Except PropError (FileWrite × Str)) : Option Str :=
  match res with
  | .ok (w, _) => some w.path
  | .error _ => none

/-- Example pluraliser: append `'s'` (what inflect does on regular nouns). -/
def exPlural (s : Str) : Str := s ++ ['s']

/-- Example secret-lookup result. -/
def exSecret : Secret :=
  { neo4j_uri := str "bolt://db:7687"
    neo4j_password := str "pw"
    submission_bucket := str "c3dc-curation" }

/-- Example wall-clock instant. -/
def exNow : DateTime := ⟨2026, 10, 12, 7, 8, 9⟩

/-- Example parsed model document with two node types. -/
def exDoc : ModelDoc :=
  ⟨some [(str "diagnosis", .vmap []), (str "study_arm", .vmap [])]⟩

/-- Second example parsed model document, with different nodes and fields. -/
def exDoc2 : ModelDoc :=
  ⟨some [(str "patient", .vstr (str "x"))]⟩

/-- Example parsed document lacking the `"Nodes"` key. -/
def exDocNoNodes : ModelDoc := ⟨none⟩

/-- Placeholder `Config` (only used as the unreachable default of example
    extractors below). -/
def emptyConfig : Config :=
  { dataset := [], uri := [], user := [], password := [], schema := []
    prop_file := [], bucket := [], s3_folder := [], backup_folder := []
    cheat_mode := false, dry_run := false, wipe_db := false, no_backup := false
    no_parents := false, verbose := false, yes := false, max_violations := 0
    mode := [], split_transactions := false, upload_log_dir := none
    plugins := [], temp_folder := [], config_file := none }

/-- Placeholder `FileWrite` (unreachable default of example extractors). -/
def emptyWrite : FileWrite := { path := [], doc := .vmap [], overwrite := false }

/-- Placeholder `LoadRun` (unreachable default of example extractors). -/
def emptyRun : LoadRun :=
  { propWrite := emptyWrite, prop_file := [], config := emptyConfig
    s3_folder := [], upload_log_dir := [] }

/-- Outcome of `create_prop_file` on the first example document. -/
def exPropResult : Except PropError (FileWrite × Str) :=
  create_prop_file exPlural (some exDoc) (str ";") (str "example.org")

/-- The file write of `exPropResult`. -/
def exPropWrite : FileWrite :=
  match exPropResult with
  | .ok (w, _) => w
  | .error _ => emptyWrite

/-- Outcome of `create_prop_file` on the second example document, with all
    caller-controllable arguments different from `exPropResult`. -/
def exPropResult2 : Except PropError (FileWrite × Str) :=
  create_prop_file (fun s => s) (some exDoc2) (str ",") (str "other.net")

/-- The file write of `exPropResult2`. -/
def exPropWrite2 : FileWrite :=
  match exPropResult2 with
  | .ok (w, _) => w
  | .error _ => emptyWrite

/-- Outcome of the flow on example inputs with a matching model tag. -/
def exFlowResult : Except HubError LoadRun :=
  c3dc_hub_data_loader exSecret (some (str "v2.3.0")) exNow exPlural (some exDoc)
    (str "batch1") (str "runner1") (str "v2.3.0") true false true
    (str "upsert") false

/-- The successful run of `exFlowResult`. -/
def exFlowRun : LoadRun :=
  match exFlowResult with
  | .ok run => run
  | .error _ => emptyRun

/-! Helper lemmas about the split/join string machinery. -/

/-- Splitting never yields an empty list of segments (Python's `split` always
    returns at least one element). -/
theorem splitOnChar_ne_nil (c : Char) (l : Str) : splitOnChar c l ≠ [] := by
  induction l with
  | nil => simp [splitOnChar]
  | cons a rest ih =>
    rcases hsp : splitOnChar c rest with _ | ⟨h, t⟩
    · exact absurd hsp ih
    · by_cases hac : a = c <;> simp [splitOnChar, hsp, hac]

/-- Joining a list whose head segment starts with a non-separator character. -/
theorem joinSep_cons_cons (c a : Char) (h : Str) (tt : List Str) :
    joinSep c ((a :: h) :: tt) = a :: joinSep c (h :: tt) := by
  cases tt <;> simp [joinSep]

/-- Joining the segments of a split recovers the original string. -/
theorem joinSep_splitOnChar (c : Char) (l : Str) :
    joinSep c (splitOnChar c l) = l := by
  induction l with
  | nil => simp [splitOnChar, joinSep]
  | cons a rest ih =>
    rcases hsp : splitOnChar c rest with _ | ⟨h, t⟩
    · exact absurd hsp (splitOnChar_ne_nil c rest)
    · rw [hsp] at ih
      by_cases hac : a = c
      · subst hac
        simp [splitOnChar, hsp, joinSep, ih]
      · simp [splitOnChar, hsp, hac, joinSep_cons_cons, ih]

/-- Splitting distributes over a separator occurrence. -/
theorem splitOnChar_append (c : Char) (l₁ l₂ : Str) :
    splitOnChar c (l₁ ++ c :: l₂) = splitOnChar c l₁ ++ splitOnChar c l₂ := by
  induction l₁ with
  | nil =>
    rcases hsp : splitOnChar c l₂ with _ | ⟨h, t⟩
    · exact absurd hsp (splitOnChar_ne_nil c l₂)
    · simp [splitOnChar, hsp]
  | cons a t ih =>
    rcases hst : splitOnChar c t with _ | ⟨h0, t0⟩
    · exact absurd hst (splitOnChar_ne_nil c t)
    · rcases hs2 : splitOnChar c l₂ with _ | ⟨h2, t2⟩
      · exact absurd hs2 (splitOnChar_ne_nil c l₂)
      · rw [hst, hs2] at ih
        by_cases hac : a = c <;>
          simp [splitOnChar, ih, hst, hs2, hac]

/-- A string free of the separator splits into the single segment itself. -/
theorem splitOnChar_of_not_mem (c : Char) (l : Str) (hn : c ∉ l) :
    splitOnChar c l = [l] := by
  induction l with
  | nil => simp [splitOnChar]
  | cons a rest ih =>
    have hac : ¬ a = c := fun h => hn (h ▸ List.mem_cons_self a rest)
    have hrest := ih (fun h => hn (List.mem_cons_of_mem a h))
    simp [splitOnChar, hrest, hac]

/-- Appending one more segment to a nonempty segment list inserts one
    separator. -/
theorem joinSep_append_singleton (c : Char) (x : Str) (A : List Str)
    (hA : A ≠ []) : joinSep c (A ++ [x]) = joinSep c A ++ c :: x := by
  induction A with
  | nil => exact absurd rfl hA
  | cons a A' ih =>
    cases A' with
    | nil => simp [joinSep]
    | cons b t =>
      have h2 := ih (by simp)
      simp only [List.cons_append, joinSep] at h2 ⊢
      simp [joinSep, List.append_assoc, h2]

/-- Looking up a key in an association list that binds every key to the same
    constant. -/
theorem lookup_map_const {β : Type} (x : β) (keys : List Str) (node : Str)
    (hmem : node ∈ keys) :
    List.lookup node (keys.map (fun n => (n, x))) = some x := by
  induction keys with
  | nil => cases hmem
  | cons k t ih =>
    simp only [List.map_cons, List.lookup]
    by_cases hk : node = k
    · simp [hk]
    · have hb : (node == k) = false := by simp [hk]
      rw [hb]
      rcases List.mem_cons.mp hmem with h | h
      · exact absurd h hk
      · exact ih h

/-- Inversion of a successful `create_prop_file` call: the model parse and the
    `"Nodes"` key must have succeeded, and the written file and returned name
    are exactly what the source builds. -/
theorem create_prop_file_ok_inv (plural : Str → Str) (parsed : Option ModelDoc)
    (delim dom : Str) (w : FileWrite) (r : Str)
    (h : create_prop_file plural parsed delim dom = .ok (w, r)) :
    ∃ md nm, parsed = some md ∧ md.nodes = some nm ∧
      w = { path := str "props_file.yaml",
            doc := YamlVal.vmap [(str "Properties", YamlVal.vmap
              [ (str "domain_value", YamlVal.vstr dom),
                (str "rel_prop_delimiter", YamlVal.vstr (str "$")),
                (str "delimiter", YamlVal.vstr delim),
                (str "plurals", YamlVal.vmap (((nm.map Prod.fst).map
                  (fun node => (node, node_plural plural node))).map
                    (fun p => (p.1, YamlVal.vstr p.2)))),
                (str "type_mapping", YamlVal.vmap (type_mapping.map
                  (fun p => (p.1, YamlVal.vstr p.2)))),
                (str "id_fields", YamlVal.vmap (((nm.map Prod.fst).map
                  (fun node => (node, str "id"))).map
                    (fun p => (p.1, YamlVal.vstr p.2)))) ])],
            overwrite := true } ∧
      r = str "props_file.yaml" := by
  cases parsed with
  | none => simp [create_prop_file] at h
  | some md =>
    cases hn : md.nodes with
    | none => simp [create_prop_file, hn] at h
    | some nm =>
      simp only [create_prop_file, hn] at h
      injection h with h'
      rw [Prod.mk.injEq] at h'
      exact ⟨md, nm, rfl, hn, h'.1.symm, h'.2.symm⟩

/-! Claim theorems. -/

/-- C1: the version guard is a hard gate.  If tag resolution yields no exact
    tag (`pulled = none`) or the resolved tag differs from the expected tag by
    exact string comparison, the flow aborts with the consistency error — and
    since the error outcome carries no `LoadRun`, neither the property-file
    write nor the loader `Config` exists.  If the resolved and expected tags
    are equal strings, the run proceeds past the guard (the outcome is never
    the consistency error). -/
theorem version_guard_gates_run (secret : Secret) (pulled : Option Str)
    (now : DateTime) (plural : Str → Str) (parse : Option ModelDoc)
    (mf runner tag : Str) (cm dr wd : Bool) (mode : Str) (st : Bool) :
    (pulled ≠ some tag →
      c3dc_hub_data_loader secret pulled now plural parse mf runner tag
        cm dr wd mode st = .error .consistencyError) ∧
    (pulled = some tag →
      c3dc_hub_data_loader secret pulled now plural parse mf runner tag
        cm dr wd mode st ≠ .error .consistencyError) := by
  constructor
  · intro h
    rw [c3dc_hub_data_loader, if_neg (fun hc => h hc.symm)]
  · intro h
    rw [c3dc_hub_data_loader, if_pos h.symm]
    cases hcp : create_prop_file plural parse (str ";")
        (str "clinicalcommons.ccdi.cancer.gov") with
    | error e => simp [hcp]
    | ok pr => simp [hcp]

/-- Witness for C1: with no resolved tag the flow aborts with the consistency
    error; with the matching tag `"v2.3.0"` it does not. -/
theorem version_guard_gates_run_witness :
    c3dc_hub_data_loader exSecret none exNow exPlural (some exDoc)
      (str "batch1") (str "runner1") (str "v2.3.0") false false false
      (str "upsert") false = .error .consistencyError ∧
    c3dc_hub_data_loader exSecret (some (str "v2.3.0")) exNow exPlural (some exDoc)
      (str "batch1") (str "runner1") (str "v2.3.0") false false false
      (str "upsert") false ≠ .error .consistencyError := by
  constructor
  · exact (version_guard_gates_run exSecret none exNow exPlural (some exDoc)
      (str "batch1") (str "runner1") (str "v2.3.0") false false false
      (str "upsert") false).1 (by decide)
  · exact (version_guard_gates_run exSecret (some (str "v2.3.0")) exNow exPlural
      (some exDoc) (str "batch1") (str "runner1") (str "v2.3.0") false false false
      (str "upsert") false).2 rfl

/-- C2: the derived plural form pluralises only the final `"_"`-separated
    segment (the prefix is preserved verbatim and rejoined with `"_"`), and a
    name without the separator is pluralised whole.  `p ++ '_' :: s` with
    `'_' ∉ s` ranges over exactly the names whose final segment is `s`. -/
theorem plural_final_segment (plural : Str → Str) :
    (∀ p s : Str, '_' ∉ s →
        node_plural plural (p ++ '_' :: s) = p ++ '_' :: plural s) ∧
    (∀ n : Str, '_' ∉ n → node_plural plural n = plural n) := by
  constructor
  · intro p s hs
    have hmem : '_' ∈ p ++ '_' :: s := by simp
    have hsp : splitOnChar '_' (p ++ '_' :: s) = splitOnChar '_' p ++ [s] := by
      rw [splitOnChar_append, splitOnChar_of_not_mem _ _ hs]
    rw [node_plural, if_pos hmem, hsp]
    simp only [List.dropLast_concat, List.getLastD_concat]
    rw [joinSep_append_singleton _ _ _ (splitOnChar_ne_nil _ _),
      joinSep_splitOnChar]
  · intro n hn
    rw [node_plural, if_neg hn]

/-- Witness for C2: `data_file` pluralises to `data_files` under the regular
    append-an-s pluraliser. -/
theorem plural_final_segment_witness :
    node_plural (fun s => s ++ ['s']) (str "data_file") = str "data_files" := by
  have e1 : str "data_file" = str "data" ++ '_' :: str "file" := by decide
  have e2 : str "data_files" = str "data" ++ '_' :: (str "file" ++ ['s']) := by
    decide
  rw [e1, e2]
  exact (plural_final_segment (fun s => s ++ ['s'])).1 (str "data") (str "file")
    (by decide)

/-- Counterexample for C3: the emitted `type_mapping` table has no entry for
    the tag `"unknown"` claimed as the ninth vocabulary tag; its ninth key is
    the placeholder `"TBD"` (mapped to `"String"`). -/
theorem type_mapping_unknown_not_mapped :
    List.lookup (str "unknown") type_mapping = none ∧
    List.lookup (str "TBD") type_mapping = some (str "String") := by decide

/-- C3 (amended): the `type_mapping` sub-document emitted by property
    derivation is a fixed constant table, independent of the input schema and
    of every other argument, and it translates the eight standard tags
    string/number/integer/boolean/array/object/datetime/date plus the
    placeholder tag `"TBD"` (which maps to the string-equivalent default
    `"String"`); the tag `"unknown"` has no entry. -/
theorem type_mapping_fixed_table (pl₁ pl₂ : Str → Str)
    (p₁ p₂ : Option ModelDoc) (d₁ d₂ v₁ v₂ : Str) (w₁ w₂ : FileWrite)
    (r₁ r₂ : Str)
    (h₁ : create_prop_file pl₁ p₁ d₁ v₁ = .ok (w₁, r₁))
    (h₂ : create_prop_file pl₂ p₂ d₂ v₂ = .ok (w₂, r₂)) :
    typeMappingOf w₁.doc = typeMappingOf w₂.doc ∧
    typeMappingOf w₁.doc =
      some (.vmap (type_mapping.map (fun p => (p.1, YamlVal.vstr p.2)))) ∧
    List.lookup (str "string") type_mapping = some (str "String") ∧
    List.lookup (str "number") type_mapping = some (str "Float") ∧
    List.lookup (str "integer") type_mapping = some (str "Int") ∧
    List.lookup (str "boolean") type_mapping = some (str "Boolean") ∧
    List.lookup (str "array") type_mapping = some (str "Array") ∧
    List.lookup (str "object") type_mapping = some (str "Object") ∧
    List.lookup (str "datetime") type_mapping = some (str "DateTime") ∧
    List.lookup (str "date") type_mapping = some (str "Date") ∧
    List.lookup (str "TBD") type_mapping = some (str "String") ∧
    List.lookup (str "unknown") type_mapping = none := by
  obtain ⟨md₁, nm₁, hp₁, hn₁, hw₁, hr₁⟩ :=
    create_prop_file_ok_inv pl₁ p₁ d₁ v₁ w₁ r₁ h₁
  obtain ⟨md₂, nm₂, hp₂, hn₂, hw₂, hr₂⟩ :=
    create_prop_file_ok_inv pl₂ p₂ d₂ v₂ w₂ r₂ h₂
  subst hw₁
  subst hw₂
  refine ⟨rfl, rfl, ?_⟩
  decide

/-- Witness for C3 (amended): the two example derivations, with different
    schemas, pluralisers, delimiters and domains, emit the same
    `type_mapping` sub-document. -/
theorem type_mapping_fixed_table_witness :
    typeMappingOf exPropWrite.doc = typeMappingOf exPropWrite2.doc := by
  exact (type_mapping_fixed_table exPlural (fun s => s) (some exDoc) (some exDoc2)
    (str ";") (str ",") (str "example.org") (str "other.net")
    exPropWrite exPropWrite2 (str "props_file.yaml") (str "props_file.yaml")
    rfl rfl).1

/-- C4: every node-type in the schema's node collection is mapped by the
    emitted `id_fields` sub-document to the fixed literal field name `"id"`,
    whatever the node's field definitions are. -/
theorem id_fields_always_id (plural : Str → Str) (parsed : Option ModelDoc)
    (delim dom : Str) (w : FileWrite) (r : Str) (md : ModelDoc)
    (nm : List (Str × YamlVal)) (node : Str)
    (h : create_prop_file plural parsed delim dom = .ok (w, r))
    (hp : parsed = some md) (hn : md.nodes = some nm)
    (hmem : node ∈ nm.map Prod.fst) :
    idFieldOf w.doc node = some (.vstr (str "id")) := by
  obtain ⟨md', nm', hp', hn', hw, hr⟩ :=
    create_prop_file_ok_inv plural parsed delim dom w r h
  rw [hp] at hp'
  injection hp' with hmd
  subst hmd
  rw [hn] at hn'
  injection hn' with hnm
  subst hnm
  subst hw
  show List.lookup node
      (((nm.map Prod.fst).map (fun node => (node, str "id"))).map
        (fun p => (p.1, YamlVal.vstr p.2))) = some (.vstr (str "id"))
  have hcomp : (((nm.map Prod.fst).map (fun node => (node, str "id"))).map
        (fun p => (p.1, YamlVal.vstr p.2))) =
      (nm.map Prod.fst).map (fun node => (node, YamlVal.vstr (str "id"))) := by
    simp
  rw [hcomp]
  exact lookup_map_const _ _ _ hmem

/-- Witness for C4: in the example derivation the node `diagnosis` is mapped
    to `"id"`. -/
theorem id_fields_always_id_witness :
    idFieldOf exPropWrite.doc (str "diagnosis") = some (.vstr (str "id")) := by
  exact id_fields_always_id exPlural (some exDoc) (str ";") (str "example.org")
    exPropWrite (str "props_file.yaml") exDoc
    [(str "diagnosis", .vmap []), (str "study_arm", .vmap [])]
    (str "diagnosis") rfl rfl rfl (by decide)

/-- Counterexample for C5: the written path is not caller-overridable — two
    calls differing in every caller-controllable argument (pluraliser, schema,
    delimiter, domain) write to the same fixed path `props_file.yaml`; no
    parameter of `create_prop_file` selects the output path. -/
theorem prop_file_path_not_overridable :
    written_path (create_prop_file exPlural (some exDoc) (str ";")
        (str "example.org")) =
      written_path (create_prop_file (fun s => s) (some exDoc2) (str ",")
        (str "other.net")) ∧
    written_path (create_prop_file exPlural (some exDoc) (str ";")
        (str "example.org")) = some (str "props_file.yaml") := ⟨rfl, rfl⟩

/-- C5 (amended): property derivation writes the property document to the
    fixed path `props_file.yaml` (not caller-overridable), opening it in
    overwrite mode, and the returned location is exactly the path written
    to. -/
theorem prop_file_fixed_path (plural : Str → Str) (parsed : Option ModelDoc)
    (delim dom : Str) (w : FileWrite) (r : Str)
    (h : create_prop_file plural parsed delim dom = .ok (w, r)) :
    w.path = str "props_file.yaml" ∧ r = w.path ∧ w.overwrite = true := by
  obtain ⟨md, nm, hp, hn, hw, hr⟩ :=
    create_prop_file_ok_inv plural parsed delim dom w r h
  subst hw
  exact ⟨rfl, hr, rfl⟩

/-- Witness for C5 (amended): the example derivation wrote to
    `props_file.yaml`, returned that very path and used overwrite mode. -/
theorem prop_file_fixed_path_witness :
    exPropWrite.path = str "props_file.yaml" ∧
    str "props_file.yaml" = exPropWrite.path ∧ exPropWrite.overwrite = true := by
  exact prop_file_fixed_path exPlural (some exDoc) (str ";") (str "example.org")
    exPropWrite (str "props_file.yaml") rfl

/-- C6: in the `Config` assembled by the flow, the caller-supplied flags
    cheat_mode, dry_run, wipe_db, mode and split_transaction appear verbatim,
    while no_backup, yes, max_violations and the plugin list are fixed to
    `true`, `true`, `1000000` and `[]` regardless of caller input. -/
theorem assembled_config_flags (secret : Secret) (pulled : Option Str)
    (now : DateTime) (plural : Str → Str) (parse : Option ModelDoc)
    (mf runner tag : Str) (cm dr wd : Bool) (mode : Str) (st : Bool)
    (run : LoadRun)
    (h : c3dc_hub_data_loader secret pulled now plural parse mf runner tag
      cm dr wd mode st = .ok run) :
    run.config.cheat_mode = cm ∧ run.config.dry_run = dr ∧
    run.config.wipe_db = wd ∧ run.config.mode = mode ∧
    run.config.split_transactions = st ∧
    run.config.no_backup = true ∧ run.config.yes = true ∧
    run.config.max_violations = 1000000 ∧ run.config.plugins = [] := by
  by_cases hc : some tag = pulled
  · rw [c3dc_hub_data_loader, if_pos hc] at h
    cases hcp : create_prop_file plural parse (str ";")
        (str "clinicalcommons.ccdi.cancer.gov") with
    | error e => simp [hcp] at h
    | ok pr =>
      obtain ⟨w, pf⟩ := pr
      simp only [hcp] at h
      injection h with h'
      subst h'
      exact ⟨rfl, rfl, rfl, rfl, rfl, rfl, rfl, rfl, rfl⟩
  · rw [c3dc_hub_data_loader, if_neg hc] at h
    exact absurd h (by simp)

/-- Witness for C6: the example successful run passes cheat_mode = true,
    dry_run = false, wipe_db = true, mode = upsert, split_transaction = false
    through verbatim and pins the four fixed values. -/
theorem assembled_config_flags_witness :
    exFlowRun.config.cheat_mode = true ∧ exFlowRun.config.dry_run = false ∧
    exFlowRun.config.wipe_db = true ∧ exFlowRun.config.mode = str "upsert" ∧
    exFlowRun.config.split_transactions = false ∧
    exFlowRun.config.no_backup = true ∧ exFlowRun.config.yes = true ∧
    exFlowRun.config.max_violations = 1000000 ∧
    exFlowRun.config.plugins = [] := by
  exact assembled_config_flags exSecret (some (str "v2.3.0")) exNow exPlural
    (some exDoc) (str "batch1") (str "runner1") (str "v2.3.0") true false true
    (str "upsert") false exFlowRun rfl

/-- Counterexample for C7: a metadata folder ending in a doubled separator
    refutes the claim as stated — `"batch1//"` ends in `"/"`, yet its derived
    storage destination differs from that of the same value without the
    trailing separator, `"batch1/"`. -/
theorem double_trailing_slash_not_normalized :
    endsWith '/' (str "batch1//") = true ∧
    s3_folder_of (str "batch1//") ≠ s3_folder_of (str "batch1/") := by decide

/-- C7 (amended): for every folder-like value with no trailing separator of
    its own, adding a single trailing `"/"` yields identical derived storage
    (metadata folder) and log (runner) destinations. -/
theorem trailing_slash_normalized (v : Str) (hv : endsWith '/' v = false) :
    s3_folder_of (v ++ ['/']) = s3_folder_of v ∧
    ∀ (b : Str) (now : DateTime),
      upload_log_dir_of b (v ++ ['/']) now = upload_log_dir_of b v now := by
  have hends : endsWith '/' (v ++ ['/']) = true := by
    simp [endsWith, List.getLast?_concat]
  have hnv : ¬ endsWith '/' v = true := by simp [hv]
  constructor
  · rw [s3_folder_of, if_pos hends, s3_folder_of, if_neg hnv]
  · intro b now
    have h1 : normalize_runner (v ++ ['/']) = v := by
      rw [normalize_runner, if_pos hends, List.dropLast_concat]
    have h2 : normalize_runner v = v := by
      rw [normalize_runner, if_neg hnv]
    simp only [upload_log_dir_of, h1, h2]

/-- Witness for C7 (amended): `"batch1/"` and `"batch1"` derive the same
    storage destination; `"runner1/"` and `"runner1"` the same log
    destination. -/
theorem trailing_slash_normalized_witness :
    s3_folder_of (str "batch1/") = s3_folder_of (str "batch1") ∧
    upload_log_dir_of (str "bucket") (str "runner1/") exNow =
      upload_log_dir_of (str "bucket") (str "runner1") exNow := by
  have e1 : str "batch1/" = str "batch1" ++ ['/'] := by decide
  have e2 : str "runner1/" = str "runner1" ++ ['/'] := by decide
  rw [e1, e2]
  exact ⟨(trailing_slash_normalized (str "batch1") (by decide)).1,
    (trailing_slash_normalized (str "runner1") (by decide)).2
      (str "bucket") exNow⟩

/-- C8: the derived log-upload destination follows the template
    `s3://{bucket}/{runner}/{log_folder}/logs` where the log folder is
    `prefect_c3dc_dataloader_` followed by the timestamp at whole-second
    precision in the `{YYYYMMDD}_T{HHMMSS}` shape (year zero-padded to four
    digits, the other components to two). -/
theorem log_upload_dir_template (b r : Str) (now : DateTime)
    (hr : endsWith '/' r = false) :
    upload_log_dir_of b r now =
      str "s3://" ++ b ++ str "/" ++ r ++ str "/" ++
        (str "prefect_c3dc_dataloader_" ++
          (zpad 4 now.year ++ zpad 2 now.month ++ zpad 2 now.day ++
           str "_T" ++ zpad 2 now.hour ++ zpad 2 now.minute ++
           zpad 2 now.second)) ++ str "/logs" := by
  have h2 : normalize_runner r = r := by
    rw [normalize_runner, if_neg (by simp [hr])]
  simp only [upload_log_dir_of, get_time, h2]

/-- Witness for C8: concrete bucket, runner and timestamp produce the expected
    destination string. -/
theorem log_upload_dir_template_witness :
    upload_log_dir_of (str "bkt") (str "runner1") ⟨2026, 1, 2, 3, 4, 5⟩ =
      str "s3://bkt/runner1/prefect_c3dc_dataloader_20260102_T030405/logs" := by
  rw [log_upload_dir_template (str "bkt") (str "runner1") ⟨2026, 1, 2, 3, 4, 5⟩
    (by decide)]
  decide

/-- C9: property derivation fails with the parse error when the schema file
    cannot be parsed and with the schema error when the parsed document lacks
    the top-level `"Nodes"` collection; in either case the result is the bare
    error — no file write occurs (the `ok` payload carrying the write is never
    produced). -/
theorem prop_file_failure_modes (plural : Str → Str) (delim dom : Str) :
    (create_prop_file plural none delim dom = .error .parseError ∧
      ∀ w r, create_prop_file plural none delim dom ≠ .ok (w, r)) ∧
    (∀ md : ModelDoc, md.nodes = none →
      create_prop_file plural (some md) delim dom = .error .schemaError ∧
      ∀ w r, create_prop_file plural (some md) delim dom ≠ .ok (w, r)) := by
  constructor
  · refine ⟨rfl, ?_⟩
    intro w r hok
    simp [create_prop_file] at hok
  · intro md hn
    constructor
    · simp [create_prop_file, hn]
    · intro w r hok
      simp [create_prop_file, hn] at hok

/-- Witness for C9: the unparseable input yields the parse error, and the
    example document without `"Nodes"` yields the schema error. -/
theorem prop_file_failure_modes_witness :
    create_prop_file exPlural none (str ";") (str "example.org")
      = .error .parseError ∧
    create_prop_file exPlural (some exDocNoNodes) (str ";") (str "example.org")
      = .error .schemaError := by
  exact ⟨(prop_file_failure_modes exPlural (str ";") (str "example.org")).1.1,
    ((prop_file_failure_modes exPlural (str ";") (str "example.org")).2
      exDocNoNodes rfl).1⟩

/-- C10: the persisted property document has the single top-level key
    `"Properties"`, whose six fields appear in the fixed order domain_value,
    rel_prop_delimiter, delimiter, plurals, type_mapping, id_fields, for every
    input schema. -/
theorem prop_doc_key_order (plural : Str → Str) (parsed : Option ModelDoc)
    (delim dom : Str) (w : FileWrite) (r : Str)
    (h : create_prop_file plural parsed delim dom = .ok (w, r)) :
    ∃ props : List (Str × YamlVal),
      w.doc = .vmap [(str "Properties", .vmap props)] ∧
      props.map Prod.fst =
        [str "domain_value", str "rel_prop_delimiter", str "delimiter",
         str "plurals", str "type_mapping", str "id_fields"] := by
  obtain ⟨md, nm, hp, hn, hw, hr⟩ :=
    create_prop_file_ok_inv plural parsed delim dom w r h
  subst hw
  exact ⟨_, rfl, rfl⟩

/-- Witness for C10: the example derivation's document decomposes into the key
    `"Properties"` over the six fields in the fixed order. -/
theorem prop_doc_key_order_witness :
    (match exPropWrite.doc with
      | .vmap [(k, .vmap props)] => (k, props.map Prod.fst)
      | _ => ([], [])) =
    (str "Properties",
      [str "domain_value", str "rel_prop_delimiter", str "delimiter",
       str "plurals", str "type_mapping", str "id_fields"]) := by
  obtain ⟨props, hdoc, hkeys⟩ := prop_doc_key_order exPlural (some exDoc)
    (str ";") (str "example.org") exPropWrite (str "props_file.yaml") rfl
  rw [hdoc]
  simp [hkeys]

end PrefectDataLoader

